import Mathlib

/-!
Shallow embedding of `src/contexts/PlayerContext.tsx` (mlmusik), the
client-side music-player state machine.

Modelling conventions:
* JS numbers carrying time/volume values are modelled as `Rat`;
  array indices (which the code computes with `%`, `findIndex` and
  subtraction, and which can be `-1`) are modelled as `Int`.
* The React state object `PlayerState` is a structure; the single
  `HTMLAudioElement` is modelled by `AudioState` (current time, volume,
  paused flag, source URL).  Each callback of the provider becomes a pure
  function `Player → … → Player` performing the same `setState` update and
  the same audio-element mutations, in order.
* `Math.floor(Math.random() * queue.length)` is modelled by an explicit
  integer parameter `r` (the drawn index).
* JS truthiness: for a string, only `""` is falsy (the `!song.filePath`
  guard); `queue[i]` is `undefined` (falsy) exactly when `i` is out of
  range, modelled by `jsGet` returning `Option`.
* JS `%` is a truncated remainder (sign of the dividend); `jsMod` encodes
  it for the positive divisors used here.
* The async `audio.play()` retry machinery of `playSong` is modelled
  separately (`RetryState`, `attemptPlay`, `fireEvent`, `runEvents`):
  the browser runs the promise reactions and event listeners of the one
  audio element sequentially, so a run is a fold over the list of
  media-loading events, each tagged with whether its `play()` call
  resolves.  In the `Player` model, `playSong`'s new-song branch records
  the eventual audio state once some attempt has succeeded.
-/

/-- A song as used by the player: only `id` and `filePath` are read. -/
structure Song where
  id : Nat
  filePath : String
  deriving DecidableEq

/-- The `repeatMode` union type `'off' | 'all' | 'one'`. -/
inductive RepeatMode where
  | off
  | all
  | one
  deriving DecidableEq

/-- The React `PlayerState` (PlayerContext.tsx lines 4-14). -/
structure PlayerState where
  currentSong : Option Song
  isPlaying : Bool
  currentTime : Rat
  duration : Rat
  volume : Rat
  queue : List Song
  currentIndex : Int
  isShuffled : Bool
  repeatMode : RepeatMode
  deriving DecidableEq

/-- The observable state of the single `HTMLAudioElement`. -/
structure AudioState where
  currentTime : Rat
  volume : Rat
  paused : Bool
  src : String
  deriving DecidableEq

/-- React state plus the audio element: everything a provider callback touches. -/
structure Player where
  state : PlayerState
  audio : AudioState
  deriving DecidableEq

/-- The initial `stateRef` contents (lines 34-44) together with the freshly
created audio element (volume synced to state, nothing loaded). -/
def initPlayer : Player :=
  { state :=
      { currentSong := none
        isPlaying := false
        currentTime := 0
        duration := 0
        volume := 7 / 10
        queue := []
        currentIndex := 0
        isShuffled := false
        repeatMode := RepeatMode.off }
    audio :=
      { currentTime := 0
        volume := 7 / 10
        paused := true
        src := "" } }

/-- JS `%` (truncated remainder, sign of the dividend). -/
def jsMod (a b : Int) : Int :=
  if a < 0 then -((-a) % b) else a % b

/-- JS `Array.prototype.findIndex` specialised to the predicate
`s => s.id === n` used at line 162: index of the first song with the given
id, `-1` when none matches. -/
def jsFindIndex : List Song → Nat → Int
  | [], _ => -1
  | s :: rest, n =>
      if s.id = n then 0
      else
        let r := jsFindIndex rest n
        if r = -1 then -1 else r + 1

/-- JS array indexing `queue[i]`: `undefined` (here `none`) out of range. -/
def jsGet (q : List Song) (i : Int) : Option Song :=
  if i < 0 then none else q[i.toNat]?

/-- The guard `state.currentSong?.id === song.id` (line 134): optional
chaining yields `undefined` when there is no current song, and
`undefined === song.id` is false. -/
def sameId (cs : Option Song) (song : Song) : Bool :=
  match cs with
  | some c => c.id == song.id
  | none => false

/-- Transition for `playSong(song, queue?)` (lines 122-234).
The async play-retry bookkeeping is modelled separately; here the audio
element ends up loaded with the song's file and playing. -/
def playSong (p : Player) (song : Song) (q? : Option (List Song)) : Player :=
  if song.filePath = "" then p
  else if sameId p.state.currentSong song then
    if p.state.isPlaying then
      { state := { p.state with isPlaying := false }
        audio := { p.audio with paused := true } }
    else
      { state := { p.state with isPlaying := true }
        audio := { p.audio with paused := false } }
  else
    { state :=
        { p.state with
          currentSong := some song
          isPlaying := true
          queue := q?.getD [song]
          currentIndex :=
            match q? with
            | some q => jsFindIndex q song.id
            | none => 0 }
      audio := { p.audio with currentTime := 0, src := song.filePath, paused := false } }

/-- The `nextIndex` computed by `playNext` (lines 255-260); `r` is the
shuffle draw `Math.floor(Math.random() * queue.length)`. -/
def playNextNextIndex (s : PlayerState) (r : Int) : Int :=
  if s.isShuffled then r else jsMod (s.currentIndex + 1) (s.queue.length : Int)

/-- The `nextIndex` computed by the `ended` handler (lines 91-96). -/
def handleEndedNextIndex (s : PlayerState) (r : Int) : Int :=
  if s.isShuffled then r else jsMod (s.currentIndex + 1) (s.queue.length : Int)

/-- Transition for `playNext` (lines 252-271). -/
def playNext (p : Player) (r : Int) : Player :=
  if p.state.queue.length = 0 then p
  else
    let nextIndex := playNextNextIndex p.state r
    if nextIndex = 0 ∧ p.state.repeatMode = RepeatMode.off ∧ p.state.isShuffled = false then
      { p with state := { p.state with isPlaying := false } }
    else
      match jsGet p.state.queue nextIndex with
      | some nextSong => playSong p nextSong (some p.state.queue)
      | none => p

/-- The `ended` event handler (lines 83-108). -/
def handleEnded (p : Player) (r : Int) : Player :=
  if p.state.repeatMode = RepeatMode.one then
    { p with audio := { p.audio with currentTime := 0, paused := false } }
  else if 0 < p.state.queue.length then
    let nextIndex := handleEndedNextIndex p.state r
    if nextIndex = 0 ∧ p.state.repeatMode = RepeatMode.off ∧ p.state.isShuffled = false then
      { p with state := { p.state with isPlaying := false } }
    else
      match jsGet p.state.queue nextIndex with
      | some nextSong => playSong p nextSong (some p.state.queue)
      | none => p
  else p

/-- Transition for `playPrevious` (lines 273-292). -/
def playPrevious (p : Player) : Player :=
  if p.state.queue.length = 0 then p
  else if 3 < p.state.currentTime then
    { p with audio := { p.audio with currentTime := 0 } }
  else
    let prevIndex : Int :=
      if p.state.currentIndex = 0 then (p.state.queue.length : Int) - 1
      else p.state.currentIndex - 1
    match jsGet p.state.queue prevIndex with
    | some prevSong => playSong p prevSong (some p.state.queue)
    | none => p

/-- Transition for `togglePlay` (lines 241-250). -/
def togglePlay (p : Player) : Player :=
  if p.state.currentSong = none then p
  else
    { state := { p.state with isPlaying := !p.state.isPlaying }
      audio := { p.audio with paused := p.state.isPlaying } }

/-- Transition for `seek` (lines 294-298). -/
def seek (p : Player) (t : Rat) : Player :=
  { state := { p.state with currentTime := t }
    audio := { p.audio with currentTime := t } }

/-- Transition for `setVolume` (lines 300-304). -/
def setVolume (p : Player) (v : Rat) : Player :=
  { state := { p.state with volume := v }
    audio := { p.audio with volume := v } }

/-- Transition for `toggleShuffle` (lines 306-308). -/
def toggleShuffle (p : Player) : Player :=
  { p with state := { p.state with isShuffled := !p.state.isShuffled } }

/-- Transition for `toggleRepeat` (lines 310-315). -/
def toggleRepeat (p : Player) : Player :=
  { p with state :=
      { p.state with
        repeatMode :=
          if p.state.repeatMode = RepeatMode.off then RepeatMode.all
          else if p.state.repeatMode = RepeatMode.all then RepeatMode.one
          else RepeatMode.off } }

/-- Transition for `addToQueue` (lines 317-319). -/
def addToQueue (p : Player) (song : Song) : Player :=
  { p with state := { p.state with queue := p.state.queue ++ [song] } }

/-- Transition for `clearQueue` (lines 321-323). -/
def clearQueue (p : Player) : Player :=
  { p with state := { p.state with queue := [], currentIndex := 0 } }

/-- The index invariant of the playback queue: `currentIndex` is
non-negative, in range whenever the queue is non-empty, and `0` when the
queue is empty. -/
def IndexInv (s : PlayerState) : Prop :=
  0 ≤ s.currentIndex ∧
    (s.queue ≠ [] → s.currentIndex < (s.queue.length : Int)) ∧
    (s.queue = [] → s.currentIndex = 0)

instance (s : PlayerState) : Decidable (IndexInv s) := by
  unfold IndexInv; infer_instance

/-! ### The play-retry machinery of `playSong` (lines 192-233) -/

/-- The mutable bookkeeping of one `playSong` call: the `playSuccess`
flag, whether the four retry listeners are still attached, and how many
times `audio.play()` has been called. -/
structure RetryState where
  playSuccess : Bool
  listenersAttached : Bool
  playCalls : Nat
  deriving DecidableEq

/-- One run of `attemptPlay` (lines 195-211): skipped when `playSuccess`
is already set; otherwise `audio.play()` is called, and if that call
resolves (`r = true`) the success flag is set and all retry listeners are
removed. -/
def attemptPlay (st : RetryState) (r : Bool) : RetryState :=
  if st.playSuccess then st
  else if r then
    { playSuccess := true, listenersAttached := false, playCalls := st.playCalls + 1 }
  else
    { st with playCalls := st.playCalls + 1 }

/-- One media-loading event (`loadstart`/`progress`/`loadeddata`/`canplay`):
it runs `attemptPlay` exactly when the listeners are still attached. -/
def fireEvent (st : RetryState) (r : Bool) : RetryState :=
  if st.listenersAttached then attemptPlay st r else st

/-- A whole sequence of media-loading events, each tagged with whether its
`play()` call resolves. -/
def runEvents (st : RetryState) (rs : List Bool) : RetryState :=
  rs.foldl fireEvent st

/-- The bookkeeping right after the immediate `audio.play()` of line 220
has been issued and has failed: one call made, no success, the four
listeners of lines 214-217 attached. -/
def initRetry : RetryState :=
  { playSuccess := false, listenersAttached := true, playCalls := 1 }

/-- How many of the events fire a `play()` call when every pre-success
event retries: all of them up to and including the first success. -/
def callsUntilSuccess : List Bool → Nat
  | [] => 0
  | r :: rest => if r then 1 else 1 + callsUntilSuccess rest

/-! ### Concrete sample data -/

def songA : Song := { id := 1, filePath := "a.mp3" }

def songB : Song := { id := 2, filePath := "b.mp3" }

def songC : Song := { id := 3, filePath := "c.mp3" }

/-- Song 1 again, but with a missing (empty, hence falsy) file path. -/
def songAEmptyPath : Song := { id := 1, filePath := "" }

/-- A player currently playing `songA` from a one-song queue. -/
def pPlaying : Player :=
  { state :=
      { currentSong := some songA
        isPlaying := true
        currentTime := 5
        duration := 9
        volume := 1
        queue := [songA]
        currentIndex := 0
        isShuffled := false
        repeatMode := RepeatMode.off }
    audio := { currentTime := 5, volume := 1, paused := false, src := "a.mp3" } }

/-- A player on the last track of a two-song queue, repeat off. -/
def endPlayer : Player :=
  { state :=
      { currentSong := some songB
        isPlaying := true
        currentTime := 0
        duration := 0
        volume := 1
        queue := [songA, songB]
        currentIndex := 1
        isShuffled := false
        repeatMode := RepeatMode.off }
    audio := { currentTime := 0, volume := 1, paused := false, src := "b.mp3" } }

/-- A shuffled player on a three-song queue. -/
def shuffledState : PlayerState :=
  { currentSong := some songA
    isPlaying := true
    currentTime := 0
    duration := 0
    volume := 1
    queue := [songA, songB, songC]
    currentIndex := 0
    isShuffled := true
    repeatMode := RepeatMode.off }

/-! ### Helper lemmas -/

theorem jsMod_nonneg_eq (a b : Int) (h : 0 ≤ a) : jsMod a b = a % b := by
  unfold jsMod
  rw [if_neg (by omega)]

theorem jsMod_nonneg_bounds (a b : Int) (ha : 0 ≤ a) (hb : 0 < b) :
    0 ≤ jsMod a b ∧ jsMod a b < b := by
  rw [jsMod_nonneg_eq a b ha]
  exact ⟨Int.emod_nonneg a (by omega), Int.emod_lt_of_pos a hb⟩

theorem jsFindIndex_bounds (q : List Song) (n : Nat) (h : ∃ s ∈ q, s.id = n) :
    0 ≤ jsFindIndex q n ∧ jsFindIndex q n < (q.length : Int) := by
  induction q with
  | nil => simp at h
  | cons a t ih =>
    by_cases ha : a.id = n
    · simp [jsFindIndex, ha]
    · have ht : ∃ s ∈ t, s.id = n := by
        rcases h with ⟨s, hs, hid⟩
        rcases List.mem_cons.mp hs with rfl | hmem
        · exact absurd hid ha
        · exact ⟨s, hmem, hid⟩
      have ⟨h1, h2⟩ := ih ht
      simp only [jsFindIndex, if_neg ha]
      rw [if_neg (by omega)]
      simp only [List.length_cons]
      push_cast
      omega

theorem jsGet_mem (q : List Song) (i : Int) (s : Song) (h : jsGet q i = some s) :
    s ∈ q := by
  unfold jsGet at h
  by_cases hi : i < 0
  · rw [if_pos hi] at h; exact absurd h (by simp)
  · rw [if_neg hi] at h
    have := List.getElem?_eq_some.mp h
    exact List.mem_iff_getElem.mpr ⟨i.toNat, this.1, this.2⟩

/-- Lemma: `playSong` keeps the index invariant, provided any explicit queue
contains a song with the played song's id (as every internal caller
guarantees). -/
theorem IndexInv_playSong (p : Player) (song : Song) (q? : Option (List Song))
    (h : IndexInv p.state)
    (hq : ∀ q, q? = some q → ∃ s ∈ q, s.id = song.id) :
    IndexInv (playSong p song q?).state := by
  unfold playSong
  by_cases hfp : song.filePath = ""
  · rw [if_pos hfp]; exact h
  · rw [if_neg hfp]
    by_cases hsame : sameId p.state.currentSong song
    · rw [if_pos hsame]
      by_cases hp : p.state.isPlaying
      · rw [if_pos hp]; exact h
      · rw [if_neg hp]; exact h
    · rw [if_neg hsame]
      cases q? with
      | none =>
        refine ⟨le_refl 0, fun _ => ?_, fun hemp => rfl⟩
        simp
      | some q =>
        have hmem := hq q rfl
        have ⟨h1, h2⟩ := jsFindIndex_bounds q song.id hmem
        refine ⟨h1, fun _ => h2, fun hemp => ?_⟩
        rcases hmem with ⟨s, hs, _⟩
        have hq0 : q = [] := by simpa using hemp
        subst hq0
        exact absurd hs (List.not_mem_nil s)

/-- The common tail of `playNext`, `handleEnded` and `playPrevious`:
look up `queue[i]`, play it with the current queue when defined. -/
theorem IndexInv_jsGet_branch (p : Player) (i : Int) (h : IndexInv p.state) :
    IndexInv (match jsGet p.state.queue i with
      | some s => playSong p s (some p.state.queue)
      | none => p).state := by
  split
  · rename_i s hg
    refine IndexInv_playSong p s (some p.state.queue) h ?_
    intro q hq
    cases hq
    exact ⟨s, jsGet_mem _ _ _ hg, rfl⟩
  · exact h

/-- Lemma: `playNext` keeps the index invariant for any shuffle draw: an
out-of-range draw makes `queue[nextIndex]` undefined, so nothing happens. -/
theorem IndexInv_playNext (p : Player) (r : Int) (h : IndexInv p.state) :
    IndexInv (playNext p r).state := by
  unfold playNext
  by_cases hlen : p.state.queue.length = 0
  · rw [if_pos hlen]; exact h
  · rw [if_neg hlen]
    by_cases hstop :
        playNextNextIndex p.state r = 0 ∧ p.state.repeatMode = RepeatMode.off ∧
        p.state.isShuffled = false
    · rw [if_pos hstop]; exact h
    · rw [if_neg hstop]
      exact IndexInv_jsGet_branch p _ h

/-- The `ended` handler keeps the index invariant. -/
theorem IndexInv_handleEnded (p : Player) (r : Int) (h : IndexInv p.state) :
    IndexInv (handleEnded p r).state := by
  unfold handleEnded
  by_cases hone : p.state.repeatMode = RepeatMode.one
  · rw [if_pos hone]; exact h
  · rw [if_neg hone]
    by_cases hlen : 0 < p.state.queue.length
    · rw [if_pos hlen]
      by_cases hstop :
          handleEndedNextIndex p.state r = 0 ∧ p.state.repeatMode = RepeatMode.off ∧
          p.state.isShuffled = false
      · rw [if_pos hstop]; exact h
      · rw [if_neg hstop]
        exact IndexInv_jsGet_branch p _ h
    · rw [if_neg hlen]; exact h

/-- Lemma: `playPrevious` keeps the index invariant. -/
theorem IndexInv_playPrevious (p : Player) (h : IndexInv p.state) :
    IndexInv (playPrevious p).state := by
  unfold playPrevious
  by_cases hlen : p.state.queue.length = 0
  · rw [if_pos hlen]; exact h
  · rw [if_neg hlen]
    by_cases ht : 3 < p.state.currentTime
    · rw [if_pos ht]; exact h
    · rw [if_neg ht]
      exact IndexInv_jsGet_branch p
        (if p.state.currentIndex = 0 then (p.state.queue.length : Int) - 1
         else p.state.currentIndex - 1) h

/-! ### Claim theorems -/

/-- C1 (counterexample): with shuffle on, for an admissible random draw
(`r = 2`, in range for the three-song queue), both `playNext` and the
`ended` handler choose index `2`, not `(currentIndex + 1) % queue.length
= 1`, although the queue is non-empty and `repeatMode` is not `one`. -/
theorem nextIndex_shuffle_cex :
    shuffledState.queue ≠ [] ∧
    shuffledState.repeatMode ≠ RepeatMode.one ∧
    (0 : Int) ≤ 2 ∧ (2 : Int) < (shuffledState.queue.length : Int) ∧
    playNextNextIndex shuffledState 2 ≠
      (shuffledState.currentIndex + 1) % (shuffledState.queue.length : Int) ∧
    handleEndedNextIndex shuffledState 2 ≠
      (shuffledState.currentIndex + 1) % (shuffledState.queue.length : Int) := by
  decide

/-- C1 (amended): for every player state with a non-empty queue,
non-negative current index and shuffle OFF, the next-track index chosen
by `playNext` and by the `ended` handler (when `repeatMode` is not `one`)
is `(currentIndex + 1) % queue.length`. -/
theorem nextIndex_is_mod (s : PlayerState) (r : Int)
    (hq : s.queue ≠ []) (hsh : s.isShuffled = false)
    (h0 : 0 ≤ s.currentIndex) (hrm : s.repeatMode ≠ RepeatMode.one) :
    playNextNextIndex s r = (s.currentIndex + 1) % (s.queue.length : Int) ∧
    handleEndedNextIndex s r = (s.currentIndex + 1) % (s.queue.length : Int) := by
  unfold playNextNextIndex handleEndedNextIndex
  rw [if_neg (by simp [hsh])]
  exact ⟨jsMod_nonneg_eq _ _ (by omega), jsMod_nonneg_eq _ _ (by omega)⟩

/-- Witness for `nextIndex_is_mod` at `endPlayer.state`, `r = 0`. -/
theorem nextIndex_is_mod_witness :
    playNextNextIndex endPlayer.state 0 =
      (endPlayer.state.currentIndex + 1) % (endPlayer.state.queue.length : Int) :=
  (nextIndex_is_mod endPlayer.state 0 (by decide) (by decide) (by decide) (by decide)).1

/-- C5: with a non-empty queue, shuffle off, repeat off and the current
index on the last track, `playNext` (and likewise the `ended` handler)
only clears `isPlaying`: the whole player is otherwise unchanged, so
playback stops instead of wrapping to the first track. -/
theorem playNext_stops_at_queue_end (p : Player) (r : Int)
    (hq : p.state.queue ≠ [])
    (hsh : p.state.isShuffled = false)
    (hrm : p.state.repeatMode = RepeatMode.off)
    (hi : p.state.currentIndex = (p.state.queue.length : Int) - 1) :
    playNext p r = { p with state := { p.state with isPlaying := false } } ∧
    handleEnded p r = { p with state := { p.state with isPlaying := false } } := by
  have hlen : p.state.queue.length ≠ 0 := fun h => hq (List.length_eq_zero.mp h)
  have hni : jsMod (p.state.currentIndex + 1) (p.state.queue.length : Int) = 0 := by
    rw [hi, sub_add_cancel, jsMod_nonneg_eq _ _ (by omega)]
    exact Int.emod_self
  have hniP : playNextNextIndex p.state r = 0 := by
    unfold playNextNextIndex
    rw [if_neg (by simp [hsh])]
    exact hni
  have hniE : handleEndedNextIndex p.state r = 0 := by
    unfold handleEndedNextIndex
    rw [if_neg (by simp [hsh])]
    exact hni
  constructor
  · unfold playNext
    rw [if_neg hlen, if_pos ⟨hniP, hrm, hsh⟩]
  · unfold handleEnded
    rw [if_neg (by simp [hrm]), if_pos (Nat.pos_of_ne_zero hlen),
      if_pos ⟨hniE, hrm, hsh⟩]

/-- Witness for `playNext_stops_at_queue_end` at `endPlayer`, `r = 0`. -/
theorem playNext_stops_at_queue_end_witness :
    playNext endPlayer 0 =
      { endPlayer with state := { endPlayer.state with isPlaying := false } } :=
  (playNext_stops_at_queue_end endPlayer 0 (by decide) (by decide) (by decide)
    (by decide)).1

/-- C2 (counterexample): the initial state satisfies the index invariant,
yet `playSong` with an explicit queue that does not contain the song sets
`currentIndex` to `findIndex`'s miss value `-1`, breaking it. -/
theorem queueIndex_inv_cex :
    IndexInv initPlayer.state ∧
    (playSong initPlayer songA (some [songB])).state.queue = [songB] ∧
    (playSong initPlayer songA (some [songB])).state.currentIndex = -1 ∧
    ¬ IndexInv (playSong initPlayer songA (some [songB])).state := by
  decide

/-- C2 (amended): the index invariant (`0 ≤ currentIndex`, in range when
the queue is non-empty, `0` when it is empty) holds initially and is
preserved by `playSong` without a queue, `playNext`, `playPrevious`,
`addToQueue` and `clearQueue`; `playSong` with an explicit queue preserves
it provided the queue contains a song with the played song's id (as every
internal caller guarantees) — otherwise `findIndex` returns `-1`. -/
theorem queueIndex_inv_preserved (p : Player) (h : IndexInv p.state) :
    (∀ song, IndexInv (playSong p song none).state) ∧
    (∀ song q, (∃ s ∈ q, s.id = song.id) →
      IndexInv (playSong p song (some q)).state) ∧
    (∀ r, IndexInv (playNext p r).state) ∧
    IndexInv (playPrevious p).state ∧
    (∀ song, IndexInv (addToQueue p song).state) ∧
    IndexInv (clearQueue p).state ∧
    IndexInv initPlayer.state := by
  refine ⟨fun song => IndexInv_playSong p song none h (by simp),
          fun song q hq =>
            IndexInv_playSong p song (some q) h (fun q' hq' => by cases hq'; exact hq),
          fun r => IndexInv_playNext p r h,
          IndexInv_playPrevious p h,
          fun song => ?_, ?_, by decide⟩
  · obtain ⟨h1, h2, h3⟩ := h
    refine ⟨h1, fun _ => ?_, fun hemp => ?_⟩
    · show p.state.currentIndex < ((p.state.queue ++ [song]).length : Int)
      rw [List.length_append]
      by_cases hq : p.state.queue = []
      · have h0 := h3 hq
        simp [h0, hq]
      · have hlt := h2 hq
        push_cast
        push_cast at hlt
        omega
    · exact absurd hemp (by simp [addToQueue])
  · exact ⟨le_refl 0, fun hne => absurd rfl hne, fun _ => rfl⟩

/-- Witness for `queueIndex_inv_preserved` at `initPlayer`. -/
theorem queueIndex_inv_preserved_witness :
    IndexInv (clearQueue initPlayer).state :=
  (queueIndex_inv_preserved initPlayer (by decide)).2.2.2.2.2.1

/-- Runs of the retry machinery are inert once `playSuccess` is set:
whatever events still arrive, nothing changes (in particular no further
`play()` call is made). -/
theorem runEvents_of_success (rs : List Bool) (st : RetryState)
    (h : st.playSuccess = true) : runEvents st rs = st := by
  induction rs with
  | nil => rfl
  | cons r rest ih =>
    have hfire : fireEvent st r = st := by
      unfold fireEvent attemptPlay
      rw [if_pos h]
      split <;> rfl
    show runEvents (fireEvent st r) rest = st
    rw [hfire, ih]

/-- Generic run of the retry loop from a not-yet-successful state with
listeners attached and `n` calls already made. -/
theorem runEvents_pending (rs : List Bool) (n : Nat) :
    runEvents { playSuccess := false, listenersAttached := true, playCalls := n } rs =
      { playSuccess := rs.any (fun b => b)
        listenersAttached := !rs.any (fun b => b)
        playCalls := n + callsUntilSuccess rs } := by
  induction rs generalizing n with
  | nil => rfl
  | cons r rest ih =>
    cases r with
    | true =>
      show runEvents (fireEvent _ true) rest = _
      have : fireEvent
          { playSuccess := false, listenersAttached := true, playCalls := n } true =
          { playSuccess := true, listenersAttached := false, playCalls := n + 1 } := rfl
      rw [this, runEvents_of_success rest _ rfl]
      simp [callsUntilSuccess]
    | false =>
      show runEvents (fireEvent _ false) rest = _
      have : fireEvent
          { playSuccess := false, listenersAttached := true, playCalls := n } false =
          { playSuccess := false, listenersAttached := true, playCalls := n + 1 } := rfl
      rw [this, ih (n + 1)]
      simp [callsUntilSuccess]
      omega

/-- C3: starting right after the immediate `play()` attempt of `playSong`
has failed (one call made, retry listeners attached), every media-loading
event fires another `play()` attempt until one resolves; as soon as one
resolves, `playSuccess` is set, the listeners are removed, and no later
event makes any further `play()` call. -/
theorem playSong_retries_until_success (rs : List Bool) :
    runEvents initRetry rs =
      { playSuccess := rs.any (fun b => b)
        listenersAttached := !rs.any (fun b => b)
        playCalls := 1 + callsUntilSuccess rs } ∧
    (∀ st : RetryState, st.playSuccess = true → runEvents st rs = st) := by
  exact ⟨runEvents_pending rs 1, fun st h => runEvents_of_success rs st h⟩

/-- Witness for `playSong_retries_until_success`: a run with two failures,
a success and a trailing event makes exactly three `play()` calls; a run
from an already-successful state changes nothing. -/
theorem playSong_retries_until_success_witness :
    runEvents initRetry [false, true, false] =
      { playSuccess := true, listenersAttached := false, playCalls := 3 } ∧
    runEvents { playSuccess := true, listenersAttached := false, playCalls := 3 }
        [false, true] =
      { playSuccess := true, listenersAttached := false, playCalls := 3 } :=
  ⟨((playSong_retries_until_success [false, true, false]).1).trans (by decide),
   (playSong_retries_until_success [false, true]).2 _ rfl⟩

/-- C4 (counterexample): calling `playSong` with a song whose id equals
the current song's id but whose `filePath` is empty does NOT toggle:
the `!song.filePath` guard returns first, so with `isPlaying = true` the
player keeps playing instead of pausing, and nothing at all changes. -/
theorem playSong_same_toggle_cex :
    pPlaying.state.currentSong = some songA ∧
    songAEmptyPath.id = songA.id ∧
    pPlaying.state.isPlaying = true ∧
    (playSong pPlaying songAEmptyPath none).state.isPlaying = true ∧
    playSong pPlaying songAEmptyPath none = pPlaying := by
  decide

/-- C4 (amended): if `playSong(song)` is called while `song.id` equals the
current song's id AND `song.filePath` is non-empty, the call only toggles
playback: playing pauses (audio paused, `isPlaying := false`), paused
resumes (`isPlaying := true`); every other state field and the audio
position are untouched (the track is not restarted). -/
theorem playSong_same_toggles (p : Player) (song c : Song)
    (q? : Option (List Song))
    (hc : p.state.currentSong = some c) (hid : c.id = song.id)
    (hfp : song.filePath ≠ "") :
    (p.state.isPlaying = true →
      playSong p song q? =
        { state := { p.state with isPlaying := false }
          audio := { p.audio with paused := true } }) ∧
    (p.state.isPlaying = false →
      playSong p song q? =
        { state := { p.state with isPlaying := true }
          audio := { p.audio with paused := false } }) := by
  have hsame : sameId p.state.currentSong song = true := by
    simp [sameId, hc, hid]
  unfold playSong
  rw [if_neg hfp, if_pos hsame]
  constructor
  · intro hp
    rw [if_pos hp]
  · intro hp
    rw [if_neg (by simp [hp])]

/-- Witness for `playSong_same_toggles`: re-playing the current song of
`pPlaying` pauses it. -/
theorem playSong_same_toggles_witness :
    playSong pPlaying songA none =
      { state := { pPlaying.state with isPlaying := false }
        audio := { pPlaying.audio with paused := true } } :=
  (playSong_same_toggles pPlaying songA songA none rfl rfl (by decide)).1 rfl

/-- C6: with a current song, `togglePlay` negates `isPlaying` (pausing
the audio element when it was playing, un-pausing it when it was paused)
and changes nothing else, so applying it twice restores the original
`isPlaying`; with no current song it is the identity. -/
theorem togglePlay_toggles (p : Player) :
    (p.state.currentSong ≠ none →
      (togglePlay p).state.isPlaying = !p.state.isPlaying ∧
      (togglePlay p).audio.paused = p.state.isPlaying ∧
      (togglePlay p).state =
        { p.state with isPlaying := !p.state.isPlaying } ∧
      (togglePlay (togglePlay p)).state.isPlaying = p.state.isPlaying) ∧
    (p.state.currentSong = none → togglePlay p = p) := by
  constructor
  · intro h
    simp [togglePlay, h]
  · intro h
    simp [togglePlay, h]

/-- Witness for `togglePlay_toggles` at `pPlaying`. -/
theorem togglePlay_toggles_witness :
    (togglePlay pPlaying).state.isPlaying = !pPlaying.state.isPlaying ∧
    (togglePlay (togglePlay pPlaying)).state.isPlaying =
      pPlaying.state.isPlaying :=
  ⟨((togglePlay_toggles pPlaying).1 (by decide)).1,
   ((togglePlay_toggles pPlaying).1 (by decide)).2.2.2⟩

/-- C7: `seek t` sets the timeline position to exactly `t` — on the audio
element and in `state.currentTime` — and leaves every other state field
and every other audio field unchanged; no clamping to `[0, duration]`. -/
theorem seek_sets_time (p : Player) (t : Rat) :
    (seek p t).state.currentTime = t ∧
    (seek p t).audio.currentTime = t ∧
    (seek p t).state.currentSong = p.state.currentSong ∧
    (seek p t).state.queue = p.state.queue ∧
    (seek p t).state.currentIndex = p.state.currentIndex ∧
    (seek p t).state.volume = p.state.volume ∧
    (seek p t).state.isPlaying = p.state.isPlaying ∧
    (seek p t).state.isShuffled = p.state.isShuffled ∧
    (seek p t).state.repeatMode = p.state.repeatMode ∧
    (seek p t).state.duration = p.state.duration ∧
    (seek p t).audio.volume = p.audio.volume ∧
    (seek p t).audio.paused = p.audio.paused ∧
    (seek p t).audio.src = p.audio.src :=
  ⟨rfl, rfl, rfl, rfl, rfl, rfl, rfl, rfl, rfl, rfl, rfl, rfl, rfl⟩

/-- C8: `addToQueue song` appends the song at the end of the queue,
preserving the order of all existing entries, and changes nothing else
(neither in the state nor on the audio element). -/
theorem addToQueue_appends (p : Player) (song : Song) :
    (addToQueue p song).state.queue = p.state.queue ++ [song] ∧
    (addToQueue p song).state.currentSong = p.state.currentSong ∧
    (addToQueue p song).state.currentIndex = p.state.currentIndex ∧
    (addToQueue p song).state.isPlaying = p.state.isPlaying ∧
    (addToQueue p song).state.currentTime = p.state.currentTime ∧
    (addToQueue p song).state.duration = p.state.duration ∧
    (addToQueue p song).state.volume = p.state.volume ∧
    (addToQueue p song).state.isShuffled = p.state.isShuffled ∧
    (addToQueue p song).state.repeatMode = p.state.repeatMode ∧
    (addToQueue p song).audio = p.audio :=
  ⟨rfl, rfl, rfl, rfl, rfl, rfl, rfl, rfl, rfl, rfl⟩

/-- C9: the player state consists exactly of the listed components — two
states agreeing on current song, play flag, current time, duration,
volume, queue, current index, shuffle flag and repeat mode are equal (no
further components) — and the repeat mode takes exactly the three values
`off`, `all`, `one`. -/
theorem playerState_components :
    (∀ s t : PlayerState,
      s.currentSong = t.currentSong → s.isPlaying = t.isPlaying →
      s.currentTime = t.currentTime → s.duration = t.duration →
      s.volume = t.volume → s.queue = t.queue →
      s.currentIndex = t.currentIndex → s.isShuffled = t.isShuffled →
      s.repeatMode = t.repeatMode → s = t) ∧
    (∀ m : RepeatMode,
      m = RepeatMode.off ∨ m = RepeatMode.all ∨ m = RepeatMode.one) := by
  constructor
  · intro s t h1 h2 h3 h4 h5 h6 h7 h8 h9
    cases s
    cases t
    simp_all
  · intro m
    cases m
    · exact Or.inl rfl
    · exact Or.inr (Or.inl rfl)
    · exact Or.inr (Or.inr rfl)

/-- Witness for `playerState_components` at the initial state. -/
theorem playerState_components_witness :
    initPlayer.state = initPlayer.state :=
  playerState_components.1 initPlayer.state initPlayer.state
    rfl rfl rfl rfl rfl rfl rfl rfl rfl

/-- C10: `toggleRepeat` cycles the repeat mode in the fixed order
`off → all → one → off`, changes no other state field and does not touch
the audio element; applying it three times is the identity. -/
theorem toggleRepeat_cycles (p : Player) :
    toggleRepeat (toggleRepeat (toggleRepeat p)) = p ∧
    (p.state.repeatMode = RepeatMode.off →
      (toggleRepeat p).state.repeatMode = RepeatMode.all) ∧
    (p.state.repeatMode = RepeatMode.all →
      (toggleRepeat p).state.repeatMode = RepeatMode.one) ∧
    (p.state.repeatMode = RepeatMode.one →
      (toggleRepeat p).state.repeatMode = RepeatMode.off) ∧
    (toggleRepeat p).state.currentSong = p.state.currentSong ∧
    (toggleRepeat p).state.isPlaying = p.state.isPlaying ∧
    (toggleRepeat p).state.currentTime = p.state.currentTime ∧
    (toggleRepeat p).state.duration = p.state.duration ∧
    (toggleRepeat p).state.volume = p.state.volume ∧
    (toggleRepeat p).state.queue = p.state.queue ∧
    (toggleRepeat p).state.currentIndex = p.state.currentIndex ∧
    (toggleRepeat p).state.isShuffled = p.state.isShuffled ∧
    (toggleRepeat p).audio = p.audio := by
  obtain ⟨⟨cs, ip, ct, d, v, q, ci, sh, rm⟩, au⟩ := p
  cases rm <;> simp [toggleRepeat]

/-- Witness for `toggleRepeat_cycles` at the initial player. -/
theorem toggleRepeat_cycles_witness :
    toggleRepeat (toggleRepeat (toggleRepeat initPlayer)) = initPlayer ∧
    (toggleRepeat initPlayer).state.repeatMode = RepeatMode.all :=
  ⟨(toggleRepeat_cycles initPlayer).1, (toggleRepeat_cycles initPlayer).2.1 rfl⟩
